import Mathlib

/-
Verification of the Linux-kernel debug-information discovery subsystem
(linux_kernel.c) against its natural-language specification.

The C code is shallowly embedded: byte buffers become `List Nat` (each
element a byte value), 64-bit unsigned arithmetic is `Nat` with explicit
`% 2 ^ 64`, and fallible C functions return `Except DrgnError _`.
-/

deriving instance DecidableEq for Except

namespace Drgn

/-- Byte values (ASCII codes) of a string literal, for readable test inputs. -/
def bytes (s : String) : List Nat := s.toList.map Char.toNat

/-- 2^64, the modulus of C `uint64_t` arithmetic. -/
def U64_MOD : Nat := 2 ^ 64

/-- ULLONG_MAX, the saturation value of `strtoull` on range error. -/
def U64_MAX : Nat := 2 ^ 64 - 1

/-- Addition of two `uint64_t` values (wraps modulo 2^64), as in `it->end += it->start`. -/
def wrapAdd64 (a b : Nat) : Nat := (a + b) % U64_MOD

/-- Read a 32-bit little-endian integer from a byte list at `off`. -/
def readU32LE (buf : List Nat) (off : Nat) : Nat :=
  buf.getD off 0 + 256 * buf.getD (off + 1) 0 + 65536 * buf.getD (off + 2) 0 +
    16777216 * buf.getD (off + 3) 0

/-- Read a 32-bit big-endian integer from a byte list at `off`. -/
def readU32BE (buf : List Nat) (off : Nat) : Nat :=
  16777216 * buf.getD off 0 + 65536 * buf.getD (off + 1) 0 + 256 * buf.getD (off + 2) 0 +
    buf.getD (off + 3) 0

/-- Model of C `strncmp(name, pre, pre.length) == 0` where `pre` contains no NUL byte:
`pre` is a (list) prefix of `name`. -/
def lpre : List Nat → List Nat → Bool
  | [], _ => true
  | _ :: _, [] => false
  | a :: as, b :: bs => if a = b then lpre as bs else false

/-- Error kinds raised or consumed by linux_kernel.c (enum drgn_error_code subset). -/
inductive DrgnErrorCode
  | OS
  | LOOKUP
  | OTHER
  | OVERFLOW
  | NOT_FOUND
  | STOP
  | NOMEM
deriving DecidableEq

/-- A drgn error: a kind together with a message. -/
structure DrgnError where
  code : DrgnErrorCode
  message : String
deriving DecidableEq

/-- Whether an `Except` result is an error. -/
def isErr {ε α : Type} : Except ε α → Bool
  | .error _ => true
  | .ok _ => false

/-- Whether an `Except` result is a success. -/
def isOk {ε α : Type} : Except ε α → Bool
  | .error _ => false
  | .ok _ => true

/-
VMCOREINFO parsing (parse_vmcoreinfo, line_to_u64, linematch).
-/

/-- C `isspace` on a byte, as used by `strtoull` to skip leading whitespace. -/
def isSpaceByte (c : Nat) : Bool :=
  c = 32 || c = 9 || c = 10 || c = 11 || c = 12 || c = 13

/-- Value of byte `c` as a digit in `base`, or `none` if it is not such a digit. -/
def digitVal (base : Nat) (c : Nat) : Option Nat :=
  if 48 ≤ c ∧ c ≤ 57 then
    if c - 48 < base then some (c - 48) else none
  else if 97 ≤ c ∧ c ≤ 122 then
    if c - 87 < base then some (c - 87) else none
  else if 65 ≤ c ∧ c ≤ 90 then
    if c - 55 < base then some (c - 55) else none
  else
    none

/-- Accumulate the maximal run of digits of `base`, returning the (unbounded)
accumulated magnitude and how many digit bytes were consumed. -/
def parseDigitsAux (base : Nat) : Nat → Nat → List Nat → Nat × Nat
  | acc, cnt, [] => (acc, cnt)
  | acc, cnt, c :: rest =>
    match digitVal base c with
    | none => (acc, cnt)
    | some d => parseDigitsAux base (acc * base + d) (cnt + 1) rest

/-- Result of the `strtoull` model: the returned `uint64_t` value, the index of
the final string position (`endptr - nptr`; 0 when no conversion was performed),
and whether `errno` was set to `ERANGE`. -/
structure StrtoullResult where
  value : Nat
  endIdx : Nat
  erange : Bool
deriving DecidableEq

/-- Final result assembly of the `strtoull` model: no digits means no
conversion (`endptr = nptr`); otherwise the magnitude saturates to
`ULLONG_MAX` with `ERANGE` on overflow, and a `-` sign negates modulo 2^64.
`startLen` is the number of bytes (whitespace, sign, base prefix) before the
digit run of length `cnt` and magnitude `mag`. -/
def mkStrtoullResult (signIsNeg : Bool) (startLen mag cnt : Nat) : StrtoullResult :=
  if cnt = 0 then
    { value := 0, endIdx := 0, erange := false }
  else if U64_MAX < mag then
    { value := U64_MAX, endIdx := startLen + cnt, erange := true }
  else
    { value := if signIsNeg then (U64_MOD - mag % U64_MOD) % U64_MOD else mag,
      endIdx := startLen + cnt, erange := false }

/-- Model of C `strtoull(s, &end, base)` for `base` 0, 10 or 16, on the byte
span `s`: skip whitespace, optional sign, optional base prefix
(`0x`/`0X` for base 0 or 16, leading `0` selects octal for base 0),
then the maximal digit run.  On overflow the value saturates to
`ULLONG_MAX` and `ERANGE` is reported; a `-` sign negates modulo 2^64. -/
def strtoull (s : List Nat) (base : Nat) : StrtoullResult :=
  let ws := (s.takeWhile isSpaceByte).length
  let s1 := s.drop ws
  let signIsNeg : Bool := s1.headD 0 = 45
  let signLen : Nat := if s1.headD 0 = 45 ∨ s1.headD 0 = 43 then 1 else 0
  let s2 := s1.drop signLen
  let hexTaken : Bool :=
    (base = 0 ∨ base = 16) &&
      (match s2 with
       | c0 :: c1 :: c2 :: _ => c0 = 48 ∧ (c1 = 120 ∨ c1 = 88) ∧ (digitVal 16 c2).isSome
       | _ => false)
  let effBase : Nat :=
    if hexTaken then 16
    else if base = 0 then (if s2.headD 0 = 48 then 8 else 10)
    else base
  let prefLen : Nat := if hexTaken then 2 else 0
  let s3 := s2.drop prefLen
  let md := parseDigitsAux effBase 0 0 s3
  mkStrtoullResult signIsNeg (ws + signLen + prefLen) md.1 md.2

/-- Model of `line_to_u64(line, newline, base, ret)` applied to the byte span
`seg` between the `=` and the `\n` of a VMCOREINFO line: run `strtoull` with
`base` and fail unless the conversion is in range and consumed exactly the
whole span (`end == newline` and `end != line` in the source). -/
def line_to_u64 (seg : List Nat) (base : Nat) : Except DrgnError Nat :=
  let r := strtoull seg base
  if r.erange then
    .error ⟨.OVERFLOW, "number in VMCOREINFO is too large"⟩
  else if r.endIdx = 0 ∨ r.endIdx ≠ seg.length then
    .error ⟨.OVERFLOW, "number in VMCOREINFO is invalid"⟩
  else
    .ok r.value

/-- The parsed VMCOREINFO record (struct vmcoreinfo).  `osrelease` is the byte
string copied from the descriptor. -/
structure Vmcoreinfo where
  osrelease : List Nat
  page_size : Nat
  kaslr_offset : Nat
  swapper_pg_dir : Nat
  pgtable_l5_enabled : Bool
deriving DecidableEq

/-- A zeroed `struct vmcoreinfo`, the state callers pass in. -/
def vmZero : Vmcoreinfo :=
  { osrelease := [], page_size := 0, kaslr_offset := 0, swapper_pg_dir := 0,
    pgtable_l5_enabled := false }

/-- Modelled from the spec: the size of the `osrelease` output buffer in
`struct vmcoreinfo` (declared in linux_kernel.h, which is outside the analyzed
sources).  Spec 4.2: "`OSRELEASE` is length-checked against the output buffer";
the concrete bound does not matter for any claim. -/
def OSRELEASE_BUF_SIZE : Nat := 128

/-- Byte string "OSRELEASE=". -/
def KEY_OSRELEASE : List Nat := bytes "OSRELEASE="
/-- Byte string "PAGESIZE=". -/
def KEY_PAGESIZE : List Nat := bytes "PAGESIZE="
/-- Byte string "KERNELOFFSET=". -/
def KEY_KERNELOFFSET : List Nat := bytes "KERNELOFFSET="
/-- Byte string "SYMBOL(swapper_pg_dir)=". -/
def KEY_SWAPPER : List Nat := bytes "SYMBOL(swapper_pg_dir)="
/-- Byte string "NUMBER(pgtable_l5_enabled)=". -/
def KEY_L5 : List Nat := bytes "NUMBER(pgtable_l5_enabled)="

/-- One iteration of the `while (line < end)` body of `parse_vmcoreinfo`
applied to the complete line `seg` (the bytes strictly between the current
position and the `\n`): the `linematch` prefix dispatch.  `PAGESIZE` and
`NUMBER(pgtable_l5_enabled)` values are converted with base 0,
`KERNELOFFSET` and `SYMBOL(swapper_pg_dir)` with base 16; unknown lines are
ignored. -/
def parse_vmcoreinfo_line (seg : List Nat) (v : Vmcoreinfo) : Except DrgnError Vmcoreinfo :=
  if lpre KEY_OSRELEASE seg then
    let val := seg.drop KEY_OSRELEASE.length
    if OSRELEASE_BUF_SIZE ≤ val.length then
      .error ⟨.OTHER, "OSRELEASE in VMCOREINFO is too long"⟩
    else
      .ok { v with osrelease := val }
  else if lpre KEY_PAGESIZE seg then
    match line_to_u64 (seg.drop KEY_PAGESIZE.length) 0 with
    | .error e => .error e
    | .ok n => .ok { v with page_size := n }
  else if lpre KEY_KERNELOFFSET seg then
    match line_to_u64 (seg.drop KEY_KERNELOFFSET.length) 16 with
    | .error e => .error e
    | .ok n => .ok { v with kaslr_offset := n }
  else if lpre KEY_SWAPPER seg then
    match line_to_u64 (seg.drop KEY_SWAPPER.length) 16 with
    | .error e => .error e
    | .ok n => .ok { v with swapper_pg_dir := n }
  else if lpre KEY_L5 seg then
    match line_to_u64 (seg.drop KEY_L5.length) 0 with
    | .error e => .error e
    | .ok n => .ok { v with pgtable_l5_enabled := n ≠ 0 }
  else
    .ok v

/-- The complete newline-terminated lines of a descriptor, in order.  A
trailing chunk with no `\n` is dropped, matching the `memchr` / `break` logic
of the source loop. -/
def vmLines : List Nat → List (List Nat)
  | [] => []
  | c :: rest =>
    if c = 10 then [] :: vmLines rest
    else
      match vmLines rest with
      | [] => []
      | l :: ls => (c :: l) :: ls

/-- The `while` loop of `parse_vmcoreinfo`, folding the parsed lines over the
record state. -/
def parse_vmcoreinfo_lines : List (List Nat) → Vmcoreinfo → Except DrgnError Vmcoreinfo
  | [], v => .ok v
  | seg :: rest, v =>
    match parse_vmcoreinfo_line seg v with
    | .error e => .error e
    | .ok v2 => parse_vmcoreinfo_lines rest v2

/-- Model of `parse_vmcoreinfo(desc, descsz, ret)`.  `v0` is the incoming
record state: the source zeroes `osrelease`, `page_size`, `kaslr_offset` and
`pgtable_l5_enabled` but leaves `swapper_pg_dir` as the caller provided it.
After the loop, the three required fields are checked (the `osrelease` check
is `!ret->osrelease[0]`, i.e. it fails when the string is empty or begins
with a NUL byte). -/
def parse_vmcoreinfo (desc : List Nat) (v0 : Vmcoreinfo) : Except DrgnError Vmcoreinfo :=
  match parse_vmcoreinfo_lines (vmLines desc)
      { v0 with osrelease := [], page_size := 0, kaslr_offset := 0,
                pgtable_l5_enabled := false } with
  | .error e => .error e
  | .ok v =>
    if v.osrelease.headD 0 = 0 then
      .error ⟨.OTHER, "VMCOREINFO does not contain valid OSRELEASE"⟩
    else if v.page_size = 0 then
      .error ⟨.OTHER, "VMCOREINFO does not contain valid PAGESIZE"⟩
    else if v.swapper_pg_dir = 0 then
      .error ⟨.OTHER, "VMCOREINFO does not contain valid swapper_pg_dir"⟩
    else
      .ok v

/-
VMCOREINFO ELF-note fallback (read_vmcoreinfo_fallback).
-/

/-- Byte string "VMCOREINFO" (10 bytes, no NUL): the length-10 `memcmp`
operand in `read_vmcoreinfo_fallback`. -/
def NAME_VMCOREINFO : List Nat := bytes "VMCOREINFO"

/-- The note-validation condition of `read_vmcoreinfo_fallback` on the bytes
read from target physical memory:
`size < 24 || nhdr->n_namesz != 11 || memcmp(buf + 12, "VMCOREINFO", 10) != 0 ||
 nhdr->n_descsz > size - 24` rejects; otherwise the buffer is accepted.
The `Elf64_Nhdr` fields `n_namesz` and `n_descsz` are the host-endian (here
little-endian) 32-bit words at offsets 0 and 4. -/
def vmcoreinfo_note_check (buf : List Nat) : Bool :=
  !(buf.length < 24 || readU32LE buf 0 ≠ 11 || (buf.drop 12).take 10 ≠ NAME_VMCOREINFO ||
      buf.length - 24 < readU32LE buf 4)

/-- Model of `read_vmcoreinfo_fallback` after the bytes have been read from
target memory: validate the note and parse the descriptor, which starts at
byte offset 24 and is `n_descsz` bytes long. -/
def read_vmcoreinfo_fallback (buf : List Nat) (v0 : Vmcoreinfo) : Except DrgnError Vmcoreinfo :=
  if vmcoreinfo_note_check buf then
    parse_vmcoreinfo ((buf.drop 24).take (readU32LE buf 4)) v0
  else
    .error ⟨.OTHER, "VMCOREINFO is invalid"⟩

/-
Binary buffer.  binary_buffer.h is not among the analyzed sources; the reader
is modelled from the spec.
-/

/-- Modelled from the spec: the binary buffer of spec 4.1 (binary_buffer.h is
not part of the analyzed sources): a bounds-checked sequential reader over
`(base, length, little_endian_target)` whose primitive reads advance a cursor
or fail, endianness affecting integer reads only. -/
structure BinaryBuffer where
  data : List Nat
  pos : Nat
  littleEndian : Bool

/-- Modelled from the spec: bounds-checked `binary_buffer_next_u8`. -/
def bb_next_u8 (bb : BinaryBuffer) : Except DrgnError (Nat × BinaryBuffer) :=
  if bb.pos + 1 ≤ bb.data.length then
    .ok (bb.data.getD bb.pos 0, { bb with pos := bb.pos + 1 })
  else
    .error ⟨.OTHER, "expected at least 1 byte"⟩

/-- Modelled from the spec: bounds-checked, endian-aware `binary_buffer_next_u32`. -/
def bb_next_u32 (bb : BinaryBuffer) : Except DrgnError (Nat × BinaryBuffer) :=
  if bb.pos + 4 ≤ bb.data.length then
    .ok (if bb.littleEndian then readU32LE bb.data bb.pos else readU32BE bb.data bb.pos,
         { bb with pos := bb.pos + 4 })
  else
    .error ⟨.OTHER, "expected at least 4 bytes"⟩

/-- Modelled from the spec: bounds-checked `binary_buffer_skip`. -/
def bb_skip (bb : BinaryBuffer) (n : Nat) : Except DrgnError BinaryBuffer :=
  if bb.pos + n ≤ bb.data.length then
    .ok { bb with pos := bb.pos + n }
  else
    .error ⟨.OTHER, "buffer is truncated"⟩

/-- Modelled from the spec: `binary_buffer_next_string` reads a NUL-terminated
string (the bytes before the next NUL), failing if no NUL byte follows, and
advances the cursor past the NUL. -/
def bb_next_string (bb : BinaryBuffer) : Except DrgnError (List Nat × BinaryBuffer) :=
  match (bb.data.drop bb.pos).findIdx? (· = 0) with
  | none => .error ⟨.OTHER, "expected string"⟩
  | some i => .ok ((bb.data.drop bb.pos).take i, { bb with pos := bb.pos + i + 1 })

/-
Depmod index (depmod_index_validate, depmod_index_init, depmod_index_find).
-/

/-- The depmod index magic number. -/
def DEPMOD_MAGIC : Nat := 0xb007f457
/-- The depmod index version word. -/
def DEPMOD_VERSION : Nat := 0x00020001

/-- Model of `depmod_index_validate`: read the first two 32-bit words of the
mapped file through a binary buffer constructed with `little_endian = false`
(see `depmod_index_buffer_init`) and compare them with the magic and version. -/
def depmod_index_validate (data : List Nat) : Except DrgnError Unit :=
  match bb_next_u32 ⟨data, 0, false⟩ with
  | .error e => .error e
  | .ok (magic, bb) =>
    if magic ≠ DEPMOD_MAGIC then .error ⟨.OTHER, "invalid magic"⟩
    else
      match bb_next_u32 bb with
      | .error e => .error e
      | .ok (version, _) =>
        if version ≠ DEPMOD_VERSION then .error ⟨.OTHER, "unknown version"⟩
        else .ok ()

/-- Model of `depmod_index_init` after the file has been mapped: validate the
bytes; on success the index holds the mapping, on failure the mapping is
released (`depmod_index_deinit`) and only the error is returned. -/
def depmod_index_init (data : List Nat) : Except DrgnError (List Nat) :=
  match depmod_index_validate data with
  | .error e => .error e
  | .ok _ => .ok data

/-- Low 28 bits of a tagged node offset (INDEX_NODE_MASK). -/
def INDEX_NODE_MASK : Nat := 0x0fffffff
/-- Child-table flag (INDEX_NODE_CHILDS). -/
def INDEX_NODE_CHILDS : Nat := 0x20000000
/-- Value-list flag (INDEX_NODE_VALUES). -/
def INDEX_NODE_VALUES : Nat := 0x40000000
/-- Prefix-string flag (INDEX_NODE_PREFIX in the source). -/
def INDEX_NODE_PFX : Nat := 0x80000000

/-- Result of one iteration of the `for (;;)` walk of `depmod_index_find`:
continue with the rest of the name at a child slot, break out of the loop
(carrying the last tagged offset and the cursor), return "not found", or fail. -/
inductive StepRes
  | cont (rest : List Nat) (pos : Nat)
  | brk (off : Nat) (pos : Nat)
  | notFound
  | err (e : DrgnError)
deriving DecidableEq

/-- The child-table / empty-name part of one `depmod_index_find` iteration,
after the prefix (if any) has been consumed: `nm` is the remaining name and
`p1` the cursor.  With the CHILDS flag, read `first` and `last`; a non-empty
name descends into child slot `*name - first` (continue), an empty name skips
the whole child table and breaks.  `4 * (last - first + 1)` is computed in C
`int` arithmetic: when `last + 1 < first` the negative product converts to a
huge `size_t`, so the skip always fails its bounds check. -/
def depmod_step_node (data : List Nat) (off : Nat) (nm : List Nat) (p1 : Nat) : StepRes :=
  if off &&& INDEX_NODE_CHILDS ≠ 0 then
    match bb_next_u8 ⟨data, p1, false⟩ with
    | .error e => .err e
    | .ok (first, bb1) =>
      match bb_next_u8 bb1 with
      | .error e => .err e
      | .ok (last, bb2) =>
        match nm with
        | c :: rest =>
          if c < first ∨ last < c then .notFound
          else
            match bb_skip bb2 (4 * (c - first)) with
            | .error e => .err e
            | .ok bb3 => .cont rest bb3.pos
        | [] =>
          if first ≤ last + 1 then
            match bb_skip bb2 (4 * (last + 1 - first)) with
            | .error e => .err e
            | .ok bb3 => .brk off bb3.pos
          else
            .err ⟨.OTHER, "buffer is truncated"⟩
  else if nm.isEmpty then
    .brk off p1
  else
    .notFound

/-- One full iteration of the `depmod_index_find` walk at cursor `pos`: read
the 32-bit (big-endian) tagged offset, bounds-check its low 28 bits against
the file length, move there, consume the prefix string when the PREFIX flag is
set (mismatch means "not found"), then handle the child table. -/
def depmod_step (data : List Nat) (name : List Nat) (pos : Nat) : StepRes :=
  match bb_next_u32 ⟨data, pos, false⟩ with
  | .error e => .err e
  | .ok (off, _) =>
    if data.length < off &&& INDEX_NODE_MASK then
      .err ⟨.OTHER, "offset is out of bounds"⟩
    else if off &&& INDEX_NODE_PFX ≠ 0 then
      match bb_next_string ⟨data, off &&& INDEX_NODE_MASK, false⟩ with
      | .error e => .err e
      | .ok (pre, bb) =>
        if lpre pre name then depmod_step_node data off (name.drop pre.length) bb.pos
        else .notFound
      else depmod_step_node data off name (off &&& INDEX_NODE_MASK)

/-- The `for (;;)` loop of `depmod_index_find`, iterated with explicit fuel
(each continue consumes at least one byte of the name, so
`name.length + 1` steps always suffice; see `depmod_find_loop_fuel`). -/
def depmod_find_loop (data : List Nat) : Nat → List Nat → Nat →
    Except DrgnError (Option (Nat × Nat))
  | 0, _, _ => .error ⟨.OTHER, "depmod walk out of fuel"⟩
  | fuel + 1, name, pos =>
    match depmod_step data name pos with
    | .err e => .error e
    | .notFound => .ok none
    | .brk off p => .ok (some (off, p))
    | .cont rest p => depmod_find_loop data fuel rest p

/-- The walk of `depmod_index_find` from the root tagged offset at byte 8. -/
def depmod_find_walk (data : List Nat) (name : List Nat) :
    Except DrgnError (Option (Nat × Nat)) :=
  depmod_find_loop data (name.length + 1) name 8

/-- Model of `depmod_index_find(depmod, name, path_ret, len_ret)`.  The result
pairs the returned path (`none` models `*path_ret = NULL`) with the final
value of `*len_ret`; `len0` is the value *len_ret holds on entry, because the
source only assigns it on the success path.  After the walk breaks: require
the VALUES flag, read the value count (0 means not found), skip the 4-byte
priority, and return the bytes up to the `:` delimiter found by `memchr`. -/
def depmod_index_find (data : List Nat) (name : List Nat) (len0 : Nat) :
    Except DrgnError (Option (List Nat) × Nat) :=
  match depmod_find_walk data name with
  | .error e => .error e
  | .ok none => .ok (none, len0)
  | .ok (some (off, p)) =>
    if off &&& INDEX_NODE_VALUES = 0 then .ok (none, len0)
    else
      match bb_next_u32 ⟨data, p, false⟩ with
      | .error e => .error e
      | .ok (value_count, bb1) =>
        if value_count = 0 then .ok (none, len0)
        else
          match bb_skip bb1 4 with
          | .error e => .error e
          | .ok bb2 =>
            match (bb2.data.drop bb2.pos).findIdx? (· = 58) with
            | none => .error ⟨.OTHER, "expected string containing a colon"⟩
            | some i => .ok (some ((bb2.data.drop bb2.pos).take i), i)

/-
Module iterator (kernel_module_iterator_next_live and the kernel-walk branch
of kernel_module_iterator_next).
-/

/-- Skip a maximal run of whitespace, as `sscanf` does between conversions. -/
def skipWS (s : List Nat) : List Nat := s.dropWhile isSpaceByte

/-- A `%*s` conversion of `sscanf`: skip whitespace, then consume a non-empty
maximal run of non-whitespace bytes; fail on end of input. -/
def scanSkipToken (s : List Nat) : Option (List Nat) :=
  let s1 := skipWS s
  let tok := s1.takeWhile (fun c => !isSpaceByte c)
  if tok.isEmpty then none else some (s1.drop tok.length)

/-- A `%SCNu64` / `%SCNx64` conversion of `sscanf`: `strtoull` semantics with
the given base; fails when no digits are consumed.  Returns the value and the
rest of the input. -/
def scanU64 (s : List Nat) (base : Nat) : Option (Nat × List Nat) :=
  let r := strtoull s base
  if r.endIdx = 0 then none else some (r.value, s.drop r.endIdx)

/-- Model of `kernel_module_iterator_next_live` applied to one line returned
by `getline` from /proc/modules (including its trailing newline): the name is
everything before the first space, then
`sscanf(p + 1, "%SCNu64 %*s %*s %*s %SCNx64", &it->end, &it->start)` parses
the size (decimal) and the load address (hex), and `it->end += it->start`
wraps in `uint64_t`.  Returns `(name, start, end)`. -/
def kernel_module_iterator_next_live (line : List Nat) :
    Except DrgnError (List Nat × Nat × Nat) :=
  match line.findIdx? (· = 32) with
  | none => .error ⟨.OTHER, "could not parse /proc/modules"⟩
  | some i =>
    match scanU64 (line.drop (i + 1)) 10 with
    | none => .error ⟨.OTHER, "could not parse /proc/modules"⟩
    | some (size, s1) =>
      match scanSkipToken s1 with
      | none => .error ⟨.OTHER, "could not parse /proc/modules"⟩
      | some s2 =>
        match scanSkipToken s2 with
        | none => .error ⟨.OTHER, "could not parse /proc/modules"⟩
        | some s3 =>
          match scanSkipToken s3 with
          | none => .error ⟨.OTHER, "could not parse /proc/modules"⟩
          | some s4 =>
            match scanU64 s4 16 with
            | none => .error ⟨.OTHER, "could not parse /proc/modules"⟩
            | some (start, _) => .ok (line.take i, start, wrapAdd64 start size)

/-- Modelled from the spec: the typed-object collaborator of spec 6 (the
object model lives outside the analyzed sources).  Each operation either
yields an object/value or fails; member lookups report a missing member with
error kind LOOKUP. -/
structure ObjCtx (Obj : Type) where
  memberDeref : Obj → String → Except DrgnError Obj
  member : Obj → String → Except DrgnError Obj
  readObj : Obj → Except DrgnError Obj
  readUnsigned : Obj → Except DrgnError Nat
  readCString : Obj → Except DrgnError (List Nat)
  containerOf : Obj → String → Except DrgnError Obj
  subscript : Obj → Nat → Except DrgnError Obj

/-- The older-kernel fallback of the base/size lookup: read `module->core_size`
into tmp2 and `module->module_core` into tmp1. -/
def kernel_module_base_size_fallback {Obj : Type} (ctx : ObjCtx Obj) (mod : Obj) :
    Except DrgnError (Obj × Obj) :=
  match ctx.memberDeref mod "core_size" with
  | .error e => .error e
  | .ok tmp2 =>
    match ctx.memberDeref mod "module_core" with
    | .error e => .error e
    | .ok tmp1 => .ok (tmp1, tmp2)

/-- The base/size member selection of `kernel_module_iterator_next`: try
`module->core_layout` (then its `size` and `base` members); if that member
lookup fails with kind LOOKUP, destroy the error and fall back to
`module->core_size` / `module->module_core`; any other error is returned
unchanged. -/
def kernel_module_base_size {Obj : Type} (ctx : ObjCtx Obj) (mod : Obj) :
    Except DrgnError (Obj × Obj) :=
  match ctx.memberDeref mod "core_layout" with
  | .ok t1 =>
    match ctx.member t1 "size" with
    | .error e => .error e
    | .ok tmp2 =>
      match ctx.member t1 "base" with
      | .error e => .error e
      | .ok tmp1 => .ok (tmp1, tmp2)
  | .error e =>
    if e.code = .LOOKUP then kernel_module_base_size_fallback ctx mod
    else .error e

/-- The kernel-walk branch of `kernel_module_iterator_next`: advance
`node = node->next`, stop when its address equals the stored list head,
otherwise resolve the enclosing `struct module`, its base/size (with the
version fallback), and its name.  Returns
`some (name, start, end, module, node)` or `none` for stop. -/
def kernel_module_iterator_next_walk {Obj : Type} (ctx : ObjCtx Obj) (node0 : Obj)
    (head : Nat) : Except DrgnError (Option (List Nat × Nat × Nat × Obj × Obj)) :=
  match ctx.memberDeref node0 "next" with
  | .error e => .error e
  | .ok n1 =>
    match ctx.readObj n1 with
    | .error e => .error e
    | .ok node =>
      match ctx.readUnsigned node with
      | .error e => .error e
      | .ok addr =>
        if addr = head then .ok none
        else
          match ctx.containerOf node "list" with
          | .error e => .error e
          | .ok mod =>
            match kernel_module_base_size ctx mod with
            | .error e => .error e
            | .ok (tmp1, tmp2) =>
              match ctx.readUnsigned tmp1 with
              | .error e => .error e
              | .ok start =>
                match ctx.readUnsigned tmp2 with
                | .error e => .error e
                | .ok size =>
                  match ctx.memberDeref mod "name" with
                  | .error e => .error e
                  | .ok nameObj =>
                    match ctx.readCString nameObj with
                    | .error e => .error e
                    | .ok nm => .ok (some (nm, start, wrapAdd64 start size, mod, node))

/-- The name-source selection of `kernel_module_section_iterator_next`: the
section name lives in `attr.battr.attr` since v5.8; if the `battr` member
lookup fails with kind LOOKUP the name is read from `attr` itself; any other
error is returned unchanged. -/
def section_attr_name_obj {Obj : Type} (ctx : ObjCtx Obj) (attr : Obj) :
    Except DrgnError Obj :=
  match ctx.member attr "battr" with
  | .ok battr => ctx.member battr "attr"
  | .error e =>
    if e.code ≠ .LOOKUP then .error e
    else .ok attr

/-- The kernel-walk branch of `kernel_module_section_iterator_next`: stop when
`i >= nsections`, otherwise read `attrs[i].address` and the section name (with
the `battr` fallback).  Returns `some (name, address)` or `none` for stop. -/
def kernel_module_section_iterator_next_walk {Obj : Type} (ctx : ObjCtx Obj)
    (attrs : Obj) (i nsections : Nat) : Except DrgnError (Option (List Nat × Nat)) :=
  if nsections ≤ i then .ok none
  else
    match ctx.subscript attrs i with
    | .error e => .error e
    | .ok attr =>
      match ctx.member attr "address" with
      | .error e => .error e
      | .ok addrObj =>
        match ctx.readUnsigned addrObj with
        | .error e => .error e
        | .ok address =>
          match section_attr_name_obj ctx attr with
          | .error e => .error e
          | .ok nsrc =>
            match ctx.member nsrc "name" with
            | .error e => .error e
            | .ok nameObj =>
              match ctx.readCString nameObj with
              | .error e => .error e
              | .ok nm => .ok (some (nm, address))

/-
Discovery coordinator (report_kernel_modules, report_loaded_kernel_module,
report_loaded_kernel_modules).  The debug-info indexer collaborator
(drgn_debug_info_report_elf / drgn_debug_info_report_error) lives outside the
analyzed sources; its calls are modelled from the spec as a list of emitted
events, with report_elf assumed to succeed and report_error returning a fatal
error only when the `errFatal` oracle says so (spec 4.10, 6).
-/

/-- A caller-supplied candidate kernel module file (struct kernel_module_file):
its path and the GNU build ID extracted from its ELF data. -/
structure KernelModuleFile where
  path : List Nat
  gnu_build_id : List Nat
deriving DecidableEq

/-- The build-ID-keyed table of candidate files (kernel_module_table): each
build ID maps to the chain linked through `kmod->next`, head first. -/
abbrev KmodTable : Type := List (List Nat × List KernelModuleFile)

/-- Hash-table lookup by build ID (kernel_module_table_search). -/
def tableSearch (t : KmodTable) (key : List Nat) : Option (List KernelModuleFile) :=
  (List.find? (fun e => e.1 = key) t).map (fun e => e.2)

/-- Hash-table entry removal (kernel_module_table_delete). -/
def tableDelete (t : KmodTable) (key : List Nat) : KmodTable :=
  List.filter (fun e => !(e.1 = key)) t

/-- The per-file insertion step of `report_kernel_modules`: when the build ID
is already present, the new file is linked in FRONT of the chain
(`kmod->next = *it.entry; *it.entry = kmod;`); otherwise a fresh entry with a
one-element chain is inserted. -/
def kmod_table_add (t : KmodTable) (kmod : KernelModuleFile) : KmodTable :=
  if (List.find? (fun e => e.1 = kmod.gnu_build_id) t).isSome then
    List.map (fun e => if e.1 = kmod.gnu_build_id then (e.1, kmod :: e.2) else e) t
  else
    t ++ [(kmod.gnu_build_id, [kmod])]

/-- The table-building loop of `report_kernel_modules`: candidate files are
inserted in the order of the caller-supplied path list. -/
def build_kmod_table (kmods : List KernelModuleFile) : KmodTable :=
  kmods.foldl kmod_table_add []

/-- An interaction with the debug-info indexer collaborator:
`report_elf(path, ..., start, end, name)` or `report_error(name-or-path, message)`. -/
inductive ReportEvent
  | elf (path : List Nat) (start end_ : Nat) (name : List Nat)
  | err (who : List Nat) (message : String)
deriving DecidableEq

/-- The chain-reporting `do { ... } while (kmod)` loop of
`report_loaded_kernel_module`: each file in the chain is section-patched
(`cache_kernel_module_sections`, success given by the `patchOk` oracle) and
reported at the module's `[start, end)` range; a file whose patching fails is
reported through the error channel instead (assumed non-fatal here). -/
def report_chain (patchOk : List Nat → Bool) (chain : List KernelModuleFile)
    (start end_ : Nat) (mname : List Nat) : List ReportEvent :=
  match chain with
  | [] => []
  | k :: rest =>
    (if patchOk k.path then ReportEvent.elf k.path start end_ mname
     else ReportEvent.err k.path "could not get section addresses") ::
      report_chain patchOk rest start end_ mname

/-- Outcome of `report_loaded_kernel_module`: `handled` models a NULL return
(the events were emitted and the table is the updated one), `notFound` models
`&drgn_not_found`, and `fatal` models a fatal error from the indexer's error
channel. -/
inductive RLKMResult
  | handled (events : List ReportEvent) (t : KmodTable)
  | notFound
  | fatal (events : List ReportEvent) (e : DrgnError)
deriving DecidableEq

/-- Model of `report_loaded_kernel_module`: when the module's build ID cannot
be extracted (`err || key.len == 0`) the error "could not find GNU build ID"
goes through the indexer's error channel and its verdict (the `errFatal`
oracle) is returned; otherwise the table is searched, a miss returns
`&drgn_not_found`, and a hit deletes the entry and reports the whole chain. -/
def report_loaded_kernel_module (patchOk : List Nat → Bool) (errFatal : Option DrgnError)
    (t : KmodTable) (buildIdRes : Except DrgnError (List Nat)) (mname : List Nat)
    (start end_ : Nat) : RLKMResult :=
  let buildIdMissing : Bool :=
    match buildIdRes with
    | .error _ => true
    | .ok bid => bid.isEmpty
  if buildIdMissing then
    match errFatal with
    | none => .handled [ReportEvent.err mname "could not find GNU build ID"] t
    | some er => .fatal [ReportEvent.err mname "could not find GNU build ID"] er
  else
    match buildIdRes with
    | .error _ => .notFound
    | .ok bid =>
      match tableSearch t bid with
      | none => .notFound
      | some chain => .handled (report_chain patchOk chain start end_ mname) (tableDelete t bid)

/-- Outcome of one iteration of the module loop in
`report_loaded_kernel_modules`: the events emitted for this module, whether
the depmod default-path lookup was reached, and whether the loop continues. -/
structure IterOutcome where
  events : List ReportEvent
  depmodLookup : Bool
  continues : Bool
deriving DecidableEq

/-- Model of one iteration of the `for (;;)` body of
`report_loaded_kernel_modules` after `kernel_module_iterator_next`
succeeded: when candidate files were supplied (`kmodTable` is non-null), an
explicitly-reported file is looked for first; `continue` on success, `break`
on a fatal error, and only `&drgn_not_found` falls through to the depmod
default-path block, which runs only when default loading is enabled and the
module is not already indexed (its events are abstracted as
`defaultEvents`). -/
def report_loaded_kernel_modules_iteration (patchOk : List Nat → Bool)
    (errFatal : Option DrgnError) (kmodTable : Option KmodTable)
    (buildIdRes : Except DrgnError (List Nat)) (mname : List Nat) (start end_ : Nat)
    (loadDefault : Bool) (isIndexed : Bool) (defaultEvents : List ReportEvent) :
    IterOutcome :=
  let defaultPart : IterOutcome :=
    if loadDefault ∧ ¬ isIndexed then ⟨defaultEvents, true, true⟩
    else ⟨[], false, true⟩
  match kmodTable with
  | none => defaultPart
  | some t =>
    match report_loaded_kernel_module patchOk errFatal t buildIdRes mname start end_ with
    | .handled evs _ => ⟨evs, false, true⟩
    | .fatal evs _ => ⟨evs, false, false⟩
    | .notFound => defaultPart

/-
Concrete fixtures used by witnesses and counterexamples.
-/

/-- A typed-object environment over `Obj := Nat` in which the version-probing
member lookups (`core_layout`, `battr`) fail with kind LOOKUP, as on an old
kernel. -/
def ctxLookup : ObjCtx Nat where
  memberDeref := fun o m =>
    if m = "core_layout" then .error ⟨.LOOKUP, "no member core_layout"⟩
    else if m = "core_size" then .ok (o + 1)
    else if m = "module_core" then .ok (o + 2)
    else if m = "name" then .ok (o + 3)
    else if m = "next" then .ok (o + 4)
    else .error ⟨.OTHER, "unexpected member"⟩
  member := fun o m =>
    if m = "battr" then .error ⟨.LOOKUP, "no member battr"⟩
    else if m = "name" then .ok (o + 3)
    else if m = "address" then .ok (o + 5)
    else .error ⟨.OTHER, "unexpected member"⟩
  readObj := fun o => .ok o
  readUnsigned := fun o => .ok (100 + o)
  readCString := fun _ => .ok (bytes "mod")
  containerOf := fun o _ => .ok (o + 10)
  subscript := fun o i => .ok (o + i)

/-- A typed-object environment over `Obj := Nat` in which the version-probing
member lookups fail with an OS error (e.g. a fault while reading target
memory), which must not be consumed by the fallback. -/
def ctxOs : ObjCtx Nat where
  memberDeref := fun o m =>
    if m = "core_layout" then .error ⟨.OS, "read fault"⟩
    else if m = "core_size" then .ok (o + 1)
    else if m = "module_core" then .ok (o + 2)
    else if m = "name" then .ok (o + 3)
    else if m = "next" then .ok (o + 4)
    else .error ⟨.OTHER, "unexpected member"⟩
  member := fun o m =>
    if m = "battr" then .error ⟨.OS, "read fault"⟩
    else if m = "name" then .ok (o + 3)
    else if m = "address" then .ok (o + 5)
    else .error ⟨.OTHER, "unexpected member"⟩
  readObj := fun o => .ok o
  readUnsigned := fun o => .ok (100 + o)
  readCString := fun _ => .ok (bytes "mod")
  containerOf := fun o _ => .ok (o + 10)
  subscript := fun o i => .ok (o + i)

/-- First caller-supplied candidate file of the build-ID-chain fixture. -/
def kmodA : KernelModuleFile := { path := bytes "a.ko", gnu_build_id := [1, 2] }

/-- Second caller-supplied candidate file, sharing `kmodA`'s build ID. -/
def kmodB : KernelModuleFile := { path := bytes "b.ko", gnu_build_id := [1, 2] }

/-- Depmod fixture whose root node has the VALUES flag, one value record and
path "foo:". -/
def depmodValuesData : List Nat :=
  [0xb0, 0x07, 0xf4, 0x57, 0x00, 0x02, 0x00, 0x01, 0x40, 0x00, 0x00, 0x0c,
   0x00, 0x00, 0x00, 0x01, 0, 0, 0, 0] ++ bytes "foo:" ++ [0]

/-- Depmod fixture whose root node is empty (no flags): any non-empty name
misses. -/
def depmodMissData : List Nat :=
  [0xb0, 0x07, 0xf4, 0x57, 0x00, 0x02, 0x00, 0x01, 0x00, 0x00, 0x00, 0x0c]

/-- Depmod fixture whose root tagged offset points past the end of the file. -/
def depmodOobData : List Nat :=
  [0xb0, 0x07, 0xf4, 0x57, 0x00, 0x02, 0x00, 0x01, 0x00, 0x00, 0x00, 0xff]

/-- Depmod fixture whose root node has the VALUES flag but a value count of
zero. -/
def depmodZeroCountData : List Nat :=
  [0xb0, 0x07, 0xf4, 0x57, 0x00, 0x02, 0x00, 0x01, 0x40, 0x00, 0x00, 0x0c,
   0x00, 0x00, 0x00, 0x00]

/-- A well-formed 8-byte depmod header (big-endian magic and version). -/
def depmodHeaderBE : List Nat :=
  [0xb0, 0x07, 0xf4, 0x57, 0x00, 0x02, 0x00, 0x01]

/-- The 8 bytes that a little-endian encoding of the magic and version would
produce. -/
def depmodHeaderLE : List Nat :=
  [0x57, 0xf4, 0x07, 0xb0, 0x01, 0x00, 0x02, 0x00]

/-- A VMCOREINFO note buffer whose 11-byte name field is "VMCOREINFOX" (the
11th byte is not the NUL the spec requires). -/
def noteBadNameBuf : List Nat :=
  [11, 0, 0, 0, 0, 0, 0, 0, 0, 0, 0, 0] ++ bytes "VMCOREINFOX" ++ [0]

/-- A well-formed VMCOREINFO note buffer: name "VMCOREINFO\0" plus one pad
byte, 51-byte descriptor. -/
def noteGoodBuf : List Nat :=
  [11, 0, 0, 0, 51, 0, 0, 0, 0, 0, 0, 0] ++ bytes "VMCOREINFO" ++ [0, 0] ++
    bytes "OSRELEASE=a\nPAGESIZE=4096\nSYMBOL(swapper_pg_dir)=1\n"

/-
Theorems.  Shared helper lemmas come first, then one theorem (with witness or
counterexample as required) per claim.
-/

/-- Any key matches itself followed by arbitrary bytes. -/
theorem lpre_append (k val : List Nat) : lpre k (k ++ val) = true := by
  induction k with
  | nil => rfl
  | cons a as ih => simp [lpre, List.cons_append, ih]

/-- Keys whose first bytes differ never match. -/
theorem lpre_ne_head {k l : List Nat} (val : List Nat) (hk : k ≠ []) (hl : l ≠ [])
    (h : k.headD 0 ≠ l.headD 0) : lpre k (l ++ val) = false := by
  cases k with
  | nil => exact absurd rfl hk
  | cons a as =>
    cases l with
    | nil => exact absurd rfl hl
    | cons b bs =>
      simp only [List.headD_cons] at h
      simp [lpre, List.cons_append, h]

/-- `vmLines` splits off a complete (newline-free) first line. -/
theorem vmLines_cons_line (line rest : List Nat) (h : (10 : Nat) ∉ line) :
    vmLines (line ++ 10 :: rest) = line :: vmLines rest := by
  induction line with
  | nil => simp [vmLines]
  | cons c l ih =>
    simp only [List.mem_cons, not_or] at h
    have hc : ¬ c = 10 := fun hc => h.1 hc.symm
    rw [List.cons_append]
    simp only [vmLines, if_neg hc, ih h.2]

/-- Dispatch of a PAGESIZE line: base 0 conversion into `page_size`. -/
theorem parse_line_pagesize (val : List Nat) (v : Vmcoreinfo) :
    parse_vmcoreinfo_line (KEY_PAGESIZE ++ val) v =
      match line_to_u64 val 0 with
      | .error e => .error e
      | .ok n => .ok { v with page_size := n } := by
  have e1 : lpre KEY_OSRELEASE (KEY_PAGESIZE ++ val) = false :=
    lpre_ne_head val (by decide) (by decide) (by decide)
  have e2 : lpre KEY_PAGESIZE (KEY_PAGESIZE ++ val) = true := lpre_append _ _
  simp [parse_vmcoreinfo_line, e1, e2, List.drop_left]

/-- Dispatch of a NUMBER(pgtable_l5_enabled) line: base 0 conversion into the
boolean. -/
theorem parse_line_l5 (val : List Nat) (v : Vmcoreinfo) :
    parse_vmcoreinfo_line (KEY_L5 ++ val) v =
      match line_to_u64 val 0 with
      | .error e => .error e
      | .ok n => .ok { v with pgtable_l5_enabled := n ≠ 0 } := by
  have e1 : lpre KEY_OSRELEASE (KEY_L5 ++ val) = false :=
    lpre_ne_head val (by decide) (by decide) (by decide)
  have e2 : lpre KEY_PAGESIZE (KEY_L5 ++ val) = false :=
    lpre_ne_head val (by decide) (by decide) (by decide)
  have e3 : lpre KEY_KERNELOFFSET (KEY_L5 ++ val) = false :=
    lpre_ne_head val (by decide) (by decide) (by decide)
  have e4 : lpre KEY_SWAPPER (KEY_L5 ++ val) = false :=
    lpre_ne_head val (by decide) (by decide) (by decide)
  have e5 : lpre KEY_L5 (KEY_L5 ++ val) = true := lpre_append _ _
  simp [parse_vmcoreinfo_line, e1, e2, e3, e4, e5, List.drop_left]

/-- Dispatch of a KERNELOFFSET line: base 16 conversion into `kaslr_offset`. -/
theorem parse_line_kerneloffset (val : List Nat) (v : Vmcoreinfo) :
    parse_vmcoreinfo_line (KEY_KERNELOFFSET ++ val) v =
      match line_to_u64 val 16 with
      | .error e => .error e
      | .ok n => .ok { v with kaslr_offset := n } := by
  have e1 : lpre KEY_OSRELEASE (KEY_KERNELOFFSET ++ val) = false :=
    lpre_ne_head val (by decide) (by decide) (by decide)
  have e2 : lpre KEY_PAGESIZE (KEY_KERNELOFFSET ++ val) = false :=
    lpre_ne_head val (by decide) (by decide) (by decide)
  have e3 : lpre KEY_KERNELOFFSET (KEY_KERNELOFFSET ++ val) = true := lpre_append _ _
  simp [parse_vmcoreinfo_line, e1, e2, e3, List.drop_left]

/-- Dispatch of a SYMBOL(swapper_pg_dir) line: base 16 conversion into
`swapper_pg_dir`. -/
theorem parse_line_swapper (val : List Nat) (v : Vmcoreinfo) :
    parse_vmcoreinfo_line (KEY_SWAPPER ++ val) v =
      match line_to_u64 val 16 with
      | .error e => .error e
      | .ok n => .ok { v with swapper_pg_dir := n } := by
  have e1 : lpre KEY_OSRELEASE (KEY_SWAPPER ++ val) = false :=
    lpre_ne_head val (by decide) (by decide) (by decide)
  have e2 : lpre KEY_PAGESIZE (KEY_SWAPPER ++ val) = false :=
    lpre_ne_head val (by decide) (by decide) (by decide)
  have e3 : lpre KEY_KERNELOFFSET (KEY_SWAPPER ++ val) = false :=
    lpre_ne_head val (by decide) (by decide) (by decide)
  have e4 : lpre KEY_SWAPPER (KEY_SWAPPER ++ val) = true := lpre_append _ _
  simp [parse_vmcoreinfo_line, e1, e2, e3, e4, List.drop_left]

/-- C1 (amended): every byte range accepted by `parse_vmcoreinfo` yields a
record with a non-empty `osrelease`, a non-zero `page_size` and a non-zero
`swapper_pg_dir`; inputs for which one of these would not hold are rejected
with an error.  (The source does not check that `page_size` is a power of two
or that it is at least 4096.) -/
theorem C1_parse_vmcoreinfo_accepted (desc : List Nat) (v0 r : Vmcoreinfo)
    (h : parse_vmcoreinfo desc v0 = .ok r) :
    r.osrelease ≠ [] ∧ r.page_size ≠ 0 ∧ r.swapper_pg_dir ≠ 0 := by
  unfold parse_vmcoreinfo at h
  split at h
  · exact Except.noConfusion h
  · split at h
    · exact Except.noConfusion h
    · split at h
      · exact Except.noConfusion h
      · split at h
        · exact Except.noConfusion h
        · rename_i v hlines h1 h2 h3
          injection h with h
          subst h
          refine ⟨fun hnil => h1 ?_, h2, h3⟩
          rw [hnil]
          rfl

/-- Witness for C1: a concrete accepted descriptor. -/
theorem C1_parse_vmcoreinfo_accepted_witness :
    parse_vmcoreinfo (bytes "OSRELEASE=a\nPAGESIZE=4096\nSYMBOL(swapper_pg_dir)=1\n") vmZero
        = .ok { osrelease := [97], page_size := 4096, kaslr_offset := 0,
                swapper_pg_dir := 1, pgtable_l5_enabled := false }
      ∧ (({ osrelease := [97], page_size := 4096, kaslr_offset := 0, swapper_pg_dir := 1,
            pgtable_l5_enabled := false } : Vmcoreinfo).osrelease ≠ []
          ∧ ({ osrelease := [97], page_size := 4096, kaslr_offset := 0, swapper_pg_dir := 1,
               pgtable_l5_enabled := false } : Vmcoreinfo).page_size ≠ 0
          ∧ ({ osrelease := [97], page_size := 4096, kaslr_offset := 0, swapper_pg_dir := 1,
               pgtable_l5_enabled := false } : Vmcoreinfo).swapper_pg_dir ≠ 0) :=
  ⟨by decide,
   C1_parse_vmcoreinfo_accepted
     (bytes "OSRELEASE=a\nPAGESIZE=4096\nSYMBOL(swapper_pg_dir)=1\n") vmZero
     { osrelease := [97], page_size := 4096, kaslr_offset := 0, swapper_pg_dir := 1,
       pgtable_l5_enabled := false } (by decide)⟩

/-- C1 counterexample: `parse_vmcoreinfo` accepts a descriptor whose
`page_size` is 3, which is neither a power of two nor ≥ 4096, so acceptance
does not guarantee the claimed page-size invariant. -/
theorem C1_page_size_unchecked_counterexample :
    parse_vmcoreinfo (bytes "OSRELEASE=a\nPAGESIZE=3\nSYMBOL(swapper_pg_dir)=1\n") vmZero
        = .ok { osrelease := [97], page_size := 3, kaslr_offset := 0,
                swapper_pg_dir := 1, pgtable_l5_enabled := false }
      ∧ ¬ 4096 ≤ ({ osrelease := [97], page_size := 3, kaslr_offset := 0, swapper_pg_dir := 1,
                    pgtable_l5_enabled := false } : Vmcoreinfo).page_size := by
  decide

/-- C6 (amended): `PAGESIZE` and `NUMBER(pgtable_l5_enabled)` values are
converted with `strtoull` base 0 (auto-detected base: `0x` means hex, a
leading `0` means octal, otherwise decimal) rather than base 10, while
`KERNELOFFSET` and `SYMBOL(swapper_pg_dir)` values are converted with base 16;
out-of-range conversions fail with an OVERFLOW-kind error. -/
theorem C6_vmcoreinfo_conversion_bases :
    (∀ val rest v, (10 : Nat) ∉ val →
        parse_vmcoreinfo_lines (vmLines (KEY_PAGESIZE ++ val ++ 10 :: rest)) v =
          match line_to_u64 val 0 with
          | .error e => .error e
          | .ok n => parse_vmcoreinfo_lines (vmLines rest) { v with page_size := n })
    ∧ (∀ val rest v, (10 : Nat) ∉ val →
        parse_vmcoreinfo_lines (vmLines (KEY_L5 ++ val ++ 10 :: rest)) v =
          match line_to_u64 val 0 with
          | .error e => .error e
          | .ok n => parse_vmcoreinfo_lines (vmLines rest) { v with pgtable_l5_enabled := n ≠ 0 })
    ∧ (∀ val rest v, (10 : Nat) ∉ val →
        parse_vmcoreinfo_lines (vmLines (KEY_KERNELOFFSET ++ val ++ 10 :: rest)) v =
          match line_to_u64 val 16 with
          | .error e => .error e
          | .ok n => parse_vmcoreinfo_lines (vmLines rest) { v with kaslr_offset := n })
    ∧ (∀ val rest v, (10 : Nat) ∉ val →
        parse_vmcoreinfo_lines (vmLines (KEY_SWAPPER ++ val ++ 10 :: rest)) v =
          match line_to_u64 val 16 with
          | .error e => .error e
          | .ok n => parse_vmcoreinfo_lines (vmLines rest) { v with swapper_pg_dir := n })
    ∧ (∀ seg base, (strtoull seg base).erange = true →
        line_to_u64 seg base = .error ⟨.OVERFLOW, "number in VMCOREINFO is too large"⟩) := by
  have hdisp : ∀ (key : List Nat) (val rest : List Nat) (v : Vmcoreinfo), (10 : Nat) ∉ key →
      (10 : Nat) ∉ val →
      parse_vmcoreinfo_lines (vmLines (key ++ val ++ 10 :: rest)) v =
        match parse_vmcoreinfo_line (key ++ val) v with
        | .error e => .error e
        | .ok v2 => parse_vmcoreinfo_lines (vmLines rest) v2 := by
    intro key val rest v hkey hval
    have hm : (10 : Nat) ∉ key ++ val := by
      simp only [List.mem_append, not_or]
      exact ⟨hkey, hval⟩
    rw [vmLines_cons_line _ _ hm]
    rfl
  refine ⟨?_, ?_, ?_, ?_, ?_⟩
  · intro val rest v hval
    rw [hdisp KEY_PAGESIZE val rest v (by decide) hval, parse_line_pagesize]
    cases line_to_u64 val 0 <;> rfl
  · intro val rest v hval
    rw [hdisp KEY_L5 val rest v (by decide) hval, parse_line_l5]
    cases line_to_u64 val 0 <;> rfl
  · intro val rest v hval
    rw [hdisp KEY_KERNELOFFSET val rest v (by decide) hval, parse_line_kerneloffset]
    cases line_to_u64 val 16 <;> rfl
  · intro val rest v hval
    rw [hdisp KEY_SWAPPER val rest v (by decide) hval, parse_line_swapper]
    cases line_to_u64 val 16 <;> rfl
  · intro seg base h
    simp [line_to_u64, h]

/-- Witness for C6: a `0x`-prefixed PAGESIZE value parsed with base 0. -/
theorem C6_vmcoreinfo_conversion_bases_witness :
    parse_vmcoreinfo_lines (vmLines (KEY_PAGESIZE ++ bytes "0x10" ++ 10 :: [])) vmZero =
      match line_to_u64 (bytes "0x10") 0 with
      | .error e => .error e
      | .ok n => parse_vmcoreinfo_lines (vmLines []) { vmZero with page_size := n } :=
  C6_vmcoreinfo_conversion_bases.1 (bytes "0x10") [] vmZero (by decide)

/-- C6 counterexample: the descriptor line `PAGESIZE=0x10` is accepted with
`page_size = 16` (base-0 auto-detection), whereas converting the same bytes
with base 10, as the claim states, fails; so PAGESIZE is not converted as a
base-10 integer. -/
theorem C6_pagesize_not_base10_counterexample :
    parse_vmcoreinfo (bytes "OSRELEASE=a\nPAGESIZE=0x10\nSYMBOL(swapper_pg_dir)=1\n") vmZero
        = .ok { osrelease := [97], page_size := 16, kaslr_offset := 0,
                swapper_pg_dir := 1, pgtable_l5_enabled := false }
      ∧ line_to_u64 (bytes "0x10") 10
        = .error ⟨.OVERFLOW, "number in VMCOREINFO is invalid"⟩ := by
  decide

/-- C9 (amended): the VMCOREINFO fallback accepts the bytes read from target
physical memory if and only if the buffer holds at least 24 bytes, the note
header's n_namesz equals 11, the FIRST TEN name bytes equal "VMCOREINFO"
(the 11th name byte is not examined), and n_descsz is at most the buffer size
minus 24; the descriptor then parsed starts at byte offset 24. -/
theorem C9_note_validation (buf : List Nat) (v0 : Vmcoreinfo) :
    (vmcoreinfo_note_check buf = true ↔
        24 ≤ buf.length ∧ readU32LE buf 0 = 11 ∧
          (buf.drop 12).take 10 = NAME_VMCOREINFO ∧
          readU32LE buf 4 ≤ buf.length - 24)
    ∧ (vmcoreinfo_note_check buf = true →
        read_vmcoreinfo_fallback buf v0 =
          parse_vmcoreinfo ((buf.drop 24).take (readU32LE buf 4)) v0) := by
  constructor
  · simp only [vmcoreinfo_note_check, Bool.not_eq_true', Bool.or_eq_false_iff,
      decide_eq_false_iff_not, Nat.not_lt, ne_eq, not_not]
    tauto
  · intro h
    simp [read_vmcoreinfo_fallback, h]

/-- Witness for C9: a well-formed note buffer is accepted and its descriptor
is parsed from byte offset 24. -/
theorem C9_note_validation_witness :
    vmcoreinfo_note_check noteGoodBuf = true ∧
      read_vmcoreinfo_fallback noteGoodBuf vmZero =
        parse_vmcoreinfo ((noteGoodBuf.drop 24).take (readU32LE noteGoodBuf 4)) vmZero :=
  ⟨by decide, (C9_note_validation noteGoodBuf vmZero).2 (by decide)⟩

/-- C9 counterexample: a buffer whose 11-byte name field is "VMCOREINFOX"
(11th byte not NUL) is accepted, so acceptance does not require the name
bytes to equal "VMCOREINFO\0" as an 11-byte string. -/
theorem C9_name_ten_bytes_counterexample :
    vmcoreinfo_note_check noteBadNameBuf = true ∧
      (noteBadNameBuf.drop 12).take 11 ≠ NAME_VMCOREINFO ++ [0] := by
  decide

/-- C3 (amended): opening the depmod index succeeds exactly on a file of size
at least 8 whose first two 32-bit fields, read as BIG-endian (the binary
buffer is constructed with `little_endian = false`), equal the magic
0xb007f457 and the version 0x00020001; on any mismatch the open fails with an
error, releasing the mapping (the model retains no data on the error path). -/
theorem C3_depmod_validate_bigendian (data : List Nat) :
    isOk (depmod_index_init data) = true ↔
      8 ≤ data.length ∧ readU32BE data 0 = DEPMOD_MAGIC ∧
        readU32BE data 4 = DEPMOD_VERSION := by
  by_cases hl : 8 ≤ data.length
  · have h4 : 0 + 4 ≤ data.length := by omega
    have h8 : 4 + 4 ≤ data.length := by omega
    by_cases hm : readU32BE data 0 = DEPMOD_MAGIC
    · by_cases hv : readU32BE data 4 = DEPMOD_VERSION
      · simp [depmod_index_init, depmod_index_validate, bb_next_u32, isOk, h4, h8, hm, hv, hl]
      · simp [depmod_index_init, depmod_index_validate, bb_next_u32, isOk, h4, h8, hm, hv]
    · simp [depmod_index_init, depmod_index_validate, bb_next_u32, isOk, h4, hm]
  · have h8 : ¬ (4 + 4 ≤ data.length) := by omega
    by_cases h4 : 0 + 4 ≤ data.length
    · simp only [depmod_index_init, depmod_index_validate, bb_next_u32, if_pos h4, if_neg h8]
      split
      · simp [isOk, hl]
      · rename_i heq
        split at heq
        all_goals try split at heq
        all_goals exact Except.noConfusion heq
    · simp [depmod_index_init, depmod_index_validate, bb_next_u32, isOk, h4, hl]

/-- Witness for C3: a big-endian-encoded header is accepted. -/
theorem C3_depmod_validate_bigendian_witness :
    isOk (depmod_index_init depmodHeaderBE) = true :=
  (C3_depmod_validate_bigendian depmodHeaderBE).mpr (by decide)

/-- C3 counterexample: the open succeeds on a file whose little-endian reads
do NOT yield the magic, and fails on the file that encodes magic and version
little-endian, so the two header fields are not read as little-endian. -/
theorem C3_little_endian_counterexample :
    isOk (depmod_index_init depmodHeaderBE) = true
      ∧ readU32LE depmodHeaderBE 0 ≠ DEPMOD_MAGIC
      ∧ isErr (depmod_index_init depmodHeaderLE) = true
      ∧ readU32LE depmodHeaderLE 0 = DEPMOD_MAGIC
      ∧ readU32LE depmodHeaderLE 4 = DEPMOD_VERSION := by
  decide

/-- A continuing walk step strictly shortens the remaining name (child-table
part). -/
theorem depmod_step_node_cont_length {data : List Nat} {off : Nat} {nm : List Nat} {p1 : Nat}
    {rest : List Nat} {p : Nat} (h : depmod_step_node data off nm p1 = .cont rest p) :
    rest.length < nm.length := by
  unfold depmod_step_node at h
  repeat' split at h
  all_goals first
    | exact StepRes.noConfusion h
    | (injection h with h1 h2
       subst h1
       simp only [List.length_cons]
       omega)

/-- A continuing walk step strictly shortens the remaining name. -/
theorem depmod_step_cont_length {data name : List Nat} {pos : Nat} {rest : List Nat} {p : Nat}
    (h : depmod_step data name pos = .cont rest p) : rest.length < name.length := by
  unfold depmod_step at h
  repeat' split at h
  all_goals first
    | exact StepRes.noConfusion h
    | exact depmod_step_node_cont_length h
    | (have h2 := depmod_step_node_cont_length h
       rw [List.length_drop] at h2
       omega)

/-- The walk result does not depend on the fuel once the fuel exceeds the
name length, so `depmod_find_walk`'s choice of `name.length + 1` models the
unbounded C loop. -/
theorem depmod_find_loop_fuel (data : List Nat) :
    ∀ f1 f2 name pos, name.length < f1 → name.length < f2 →
      depmod_find_loop data f1 name pos = depmod_find_loop data f2 name pos := by
  intro f1
  induction f1 with
  | zero => intro f2 name pos h1 _; exact absurd h1 (Nat.not_lt_zero _)
  | succ k ih =>
    intro f2 name pos h1 h2
    cases f2 with
    | zero => exact absurd h2 (Nat.not_lt_zero _)
    | succ m =>
      simp only [depmod_find_loop]
      cases hs : depmod_step data name pos with
      | err e => rfl
      | notFound => rfl
      | brk off p => rfl
      | cont rest p =>
        have hlt := depmod_step_cont_length hs
        exact ih m rest p (by omega) (by omega)

/-- C4 (amended): for every depmod index and module name, if the trie walk
exhausts the name at a node with the VALUES flag whose value count is
positive (and the first value record contains a `:` delimiter),
`depmod_index_find` returns the first value record's path truncated at the
`:`; if the walk reaches a byte-exact mismatch or a valueless node, it
returns a null path with NO error, leaving the length output UNCHANGED (the
source does not assign `*len_ret` on the not-found path). -/
theorem C4_depmod_find_first_value :
    (∀ data name len0 off p cnt i,
        depmod_find_walk data name = .ok (some (off, p)) →
        off &&& INDEX_NODE_VALUES ≠ 0 →
        p + 4 ≤ data.length →
        readU32BE data p = cnt →
        cnt ≠ 0 →
        p + 8 ≤ data.length →
        (data.drop (p + 8)).findIdx? (· = 58) = some i →
        depmod_index_find data name len0 = .ok (some ((data.drop (p + 8)).take i), i))
    ∧ (∀ data name len0,
        depmod_find_walk data name = .ok none →
        depmod_index_find data name len0 = .ok (none, len0))
    ∧ (∀ data name len0 off p,
        depmod_find_walk data name = .ok (some (off, p)) →
        off &&& INDEX_NODE_VALUES = 0 →
        depmod_index_find data name len0 = .ok (none, len0)) := by
  refine ⟨?_, ?_, ?_⟩
  · intro data name len0 off p cnt i hw hv hp4 hcnt hcz hp8 hcol
    have hp44 : p + 4 + 4 ≤ data.length := by omega
    have hpp : p + 4 + 4 = p + 8 := by omega
    simp only [depmod_index_find, hw, if_neg hv, bb_next_u32, bb_skip, if_pos hp4,
      if_pos hp44, hcnt, if_neg hcz, hpp, Bool.false_eq_true, if_false]
    rw [hcol]
  · intro data name len0 hw
    simp only [depmod_index_find, hw]
  · intro data name len0 off p hw hv
    simp only [depmod_index_find, hw, if_pos hv]

/-- Witness for C4: the VALUES fixture returns its first path "foo". -/
theorem C4_depmod_find_first_value_witness :
    depmod_index_find depmodValuesData [] 7 =
      .ok (some ((depmodValuesData.drop 20).take 3), 3) :=
  C4_depmod_find_first_value.1 depmodValuesData [] 7 0x4000000c 12 1 3
    (by decide) (by decide) (by decide) (by decide) (by decide) (by decide) (by decide)

/-- C4 counterexample: on a miss, `*len_ret` keeps its previous value (here
7), so the pair `(null, 0)` the claim states is not what is returned. -/
theorem C4_len_unchanged_counterexample :
    depmod_index_find depmodMissData [97] 7 = .ok (none, 7) ∧ (7 : Nat) ≠ 0 := by
  decide

/-- C5 (amended): an out-of-bounds node offset and a value record with no `:`
delimiter before end of file cause `depmod_index_find` to return an ERROR
(raised through the bounds-checked buffer / `binary_buffer_error`), and
errors from the walk propagate; only a value list with count zero yields the
"not found" result (null path, no error). -/
theorem C5_depmod_find_malformed :
    (∀ data name len0 e,
        depmod_find_walk data name = .error e →
        depmod_index_find data name len0 = .error e)
    ∧ (∀ data name pos,
        pos + 4 ≤ data.length →
        data.length < readU32BE data pos &&& INDEX_NODE_MASK →
        depmod_step data name pos = .err ⟨.OTHER, "offset is out of bounds"⟩)
    ∧ (∀ data name len0 off p,
        depmod_find_walk data name = .ok (some (off, p)) →
        off &&& INDEX_NODE_VALUES ≠ 0 →
        p + 4 ≤ data.length →
        readU32BE data p = 0 →
        depmod_index_find data name len0 = .ok (none, len0))
    ∧ (∀ data name len0 off p cnt,
        depmod_find_walk data name = .ok (some (off, p)) →
        off &&& INDEX_NODE_VALUES ≠ 0 →
        p + 4 ≤ data.length →
        readU32BE data p = cnt →
        cnt ≠ 0 →
        p + 8 ≤ data.length →
        (data.drop (p + 8)).findIdx? (· = 58) = none →
        depmod_index_find data name len0 =
          .error ⟨.OTHER, "expected string containing a colon"⟩) := by
  refine ⟨?_, ?_, ?_, ?_⟩
  · intro data name len0 e hw
    simp only [depmod_index_find, hw]
  · intro data name pos hp4 hoob
    simp only [depmod_step, bb_next_u32, if_pos hp4]
    simp only [Bool.false_eq_true, if_false]
    rw [if_pos hoob]
  · intro data name len0 off p hw hv hp4 hcnt
    simp only [depmod_index_find, hw, if_neg hv, bb_next_u32, if_pos hp4, hcnt,
      Bool.false_eq_true, if_false, eq_self_iff_true, if_true]
  · intro data name len0 off p cnt hw hv hp4 hcnt hcz hp8 hcol
    have hp44 : p + 4 + 4 ≤ data.length := by omega
    have hpp : p + 4 + 4 = p + 8 := by omega
    simp only [depmod_index_find, hw, if_neg hv, bb_next_u32, bb_skip, if_pos hp4,
      if_pos hp44, hcnt, if_neg hcz, hpp, Bool.false_eq_true, if_false]
    rw [hcol]

/-- Witness for C5: a zero-count value list yields "not found" with no error
and an unchanged length output. -/
theorem C5_depmod_find_malformed_witness :
    depmod_index_find depmodZeroCountData [] 9 = .ok (none, 9) :=
  C5_depmod_find_malformed.2.2.1 depmodZeroCountData [] 9 0x4000000c 12
    (by decide) (by decide) (by decide) (by decide)

/-- C5 counterexample: an out-of-bounds root offset makes
`depmod_index_find` return an error, not the claimed "not found" result. -/
theorem C5_oob_is_error_counterexample :
    depmod_index_find depmodOobData [] 0 = .error ⟨.OTHER, "offset is out of bounds"⟩ := by
  decide

/-- C7 (confirmed): in the kernel-walk backends, only a LOOKUP-kind error
from the `core_layout` member lookup triggers the fallback to
`module_core`/`core_size`, and only a LOOKUP-kind error from the `battr`
member lookup triggers the fallback to the direct `name` member; every error
of any other kind at those sites propagates to the caller unchanged. -/
theorem C7_lookup_fallback_discrimination :
    (∀ {Obj : Type} (ctx : ObjCtx Obj) (mod : Obj) (e : DrgnError),
        ctx.memberDeref mod "core_layout" = .error e → e.code ≠ .LOOKUP →
        kernel_module_base_size ctx mod = .error e)
    ∧ (∀ {Obj : Type} (ctx : ObjCtx Obj) (mod : Obj) (e : DrgnError),
        ctx.memberDeref mod "core_layout" = .error e → e.code = .LOOKUP →
        kernel_module_base_size ctx mod = kernel_module_base_size_fallback ctx mod)
    ∧ (∀ {Obj : Type} (ctx : ObjCtx Obj) (attr : Obj) (e : DrgnError),
        ctx.member attr "battr" = .error e → e.code ≠ .LOOKUP →
        section_attr_name_obj ctx attr = .error e)
    ∧ (∀ {Obj : Type} (ctx : ObjCtx Obj) (attr : Obj) (e : DrgnError),
        ctx.member attr "battr" = .error e → e.code = .LOOKUP →
        section_attr_name_obj ctx attr = .ok attr)
    ∧ (∀ {Obj : Type} (ctx : ObjCtx Obj) (node0 n1 node mod : Obj) (head addr : Nat)
        (e : DrgnError),
        ctx.memberDeref node0 "next" = .ok n1 →
        ctx.readObj n1 = .ok node →
        ctx.readUnsigned node = .ok addr →
        addr ≠ head →
        ctx.containerOf node "list" = .ok mod →
        ctx.memberDeref mod "core_layout" = .error e →
        e.code ≠ .LOOKUP →
        kernel_module_iterator_next_walk ctx node0 head = .error e)
    ∧ (∀ {Obj : Type} (ctx : ObjCtx Obj) (attrs attr addrObj : Obj)
        (i nsections address : Nat) (e : DrgnError),
        i < nsections →
        ctx.subscript attrs i = .ok attr →
        ctx.member attr "address" = .ok addrObj →
        ctx.readUnsigned addrObj = .ok address →
        ctx.member attr "battr" = .error e →
        e.code ≠ .LOOKUP →
        kernel_module_section_iterator_next_walk ctx attrs i nsections = .error e) := by
  refine ⟨?_, ?_, ?_, ?_, ?_, ?_⟩
  · intro Obj ctx mod e h1 h2
    simp only [kernel_module_base_size, h1, if_neg h2]
  · intro Obj ctx mod e h1 h2
    simp only [kernel_module_base_size, h1, if_pos h2]
  · intro Obj ctx attr e h1 h2
    simp only [section_attr_name_obj, h1, if_pos h2]
  · intro Obj ctx attr e h1 h2
    simp only [section_attr_name_obj, h1]
    rw [if_neg (fun hc => hc h2)]
  · intro Obj ctx node0 n1 node mod head addr e h1 h2 h3 h4 h5 h6 h7
    simp only [kernel_module_iterator_next_walk, h1, h2, h3, if_neg h4, h5,
      kernel_module_base_size, h6, if_neg h7]
  · intro Obj ctx attrs attr addrObj i nsections address e hi h1 h2 h3 h4 h5
    simp only [kernel_module_section_iterator_next_walk, if_neg (Nat.not_le.mpr hi),
      h1, h2, h3, section_attr_name_obj, h4, if_pos h5]

/-- Witness for C7: concrete environments in which the probing lookups fail
with kind LOOKUP (fallback taken) and with kind OS (error propagated). -/
theorem C7_lookup_fallback_discrimination_witness :
    kernel_module_base_size ctxLookup 0 = kernel_module_base_size_fallback ctxLookup 0
    ∧ kernel_module_base_size ctxOs 0 = .error ⟨.OS, "read fault"⟩
    ∧ section_attr_name_obj ctxLookup 5 = .ok 5
    ∧ section_attr_name_obj ctxOs 5 = .error ⟨.OS, "read fault"⟩ :=
  ⟨C7_lookup_fallback_discrimination.2.1 ctxLookup 0
     ⟨.LOOKUP, "no member core_layout"⟩ (by decide) rfl,
   C7_lookup_fallback_discrimination.1 ctxOs 0 ⟨.OS, "read fault"⟩ (by decide) (by decide),
   C7_lookup_fallback_discrimination.2.2.2.1 ctxLookup 5
     ⟨.LOOKUP, "no member battr"⟩ (by decide) rfl,
   C7_lookup_fallback_discrimination.2.2.1 ctxOs 5 ⟨.OS, "read fault"⟩ (by decide) (by decide)⟩

/-- The assembled `strtoull` result value always fits in a `uint64_t`. -/
theorem mkStrtoullResult_value_lt (signIsNeg : Bool) (startLen mag cnt : Nat) :
    (mkStrtoullResult signIsNeg startLen mag cnt).value < U64_MOD := by
  have hN : U64_MOD = 18446744073709551616 := by norm_num [U64_MOD]
  have hM : U64_MAX = 18446744073709551615 := by norm_num [U64_MAX]
  unfold mkStrtoullResult
  split
  · simp only
    omega
  · split
    · simp only
      omega
    · simp only
      split
      · exact Nat.mod_lt _ (by omega)
      · omega

/-- The value a `strtoull` model run returns always fits in a `uint64_t`. -/
theorem strtoull_value_lt (s : List Nat) (base : Nat) : (strtoull s base).value < U64_MOD := by
  simp only [strtoull]
  exact mkStrtoullResult_value_lt _ _ _ _

/-- A successful `%u64`/`%x64` conversion yields a value below 2^64. -/
theorem scanU64_value_lt {s : List Nat} {base v : Nat} {r : List Nat}
    (h : scanU64 s base = some (v, r)) : v < U64_MOD := by
  simp only [scanU64] at h
  split at h
  · exact Option.noConfusion h
  · rw [Option.some.injEq, Prod.mk.injEq] at h
    rcases h with ⟨h1, _⟩
    subst h1
    exact strtoull_value_lt s base

/-- The wrapped end address is at least the start exactly when the 64-bit sum
does not overflow. -/
theorem wrapAdd64_start_le_end (a b : Nat) (ha : a < U64_MOD) (hb : b < U64_MOD) :
    a ≤ wrapAdd64 a b ↔ a + b < U64_MOD := by
  have hN : U64_MOD = 18446744073709551616 := by norm_num [U64_MOD]
  simp only [wrapAdd64, hN] at *
  omega

/-- C8 (amended): in both backends the emitted end address is computed as
`(start + size) mod 2^64`, so `start ≤ end` holds exactly when `start + size`
does not overflow 64 bits; a module whose start plus size reaches 2^64 is
emitted with `end < start`. -/
theorem C8_end_wraps_mod_2_64 :
    (∀ (line : List Nat) (i size : Nat) (s1 s2 s3 s4 : List Nat) (start : Nat)
        (r : List Nat),
        line.findIdx? (· = 32) = some i →
        scanU64 (line.drop (i + 1)) 10 = some (size, s1) →
        scanSkipToken s1 = some s2 →
        scanSkipToken s2 = some s3 →
        scanSkipToken s3 = some s4 →
        scanU64 s4 16 = some (start, r) →
        kernel_module_iterator_next_live line = .ok (line.take i, start, wrapAdd64 start size)
          ∧ (start ≤ wrapAdd64 start size ↔ start + size < U64_MOD))
    ∧ (∀ {Obj : Type} (ctx : ObjCtx Obj) (node0 n1 node mod tmp1 tmp2 nameObj : Obj)
        (head addr start size : Nat) (nm : List Nat),
        ctx.memberDeref node0 "next" = .ok n1 →
        ctx.readObj n1 = .ok node →
        ctx.readUnsigned node = .ok addr →
        addr ≠ head →
        ctx.containerOf node "list" = .ok mod →
        kernel_module_base_size ctx mod = .ok (tmp1, tmp2) →
        ctx.readUnsigned tmp1 = .ok start →
        ctx.readUnsigned tmp2 = .ok size →
        ctx.memberDeref mod "name" = .ok nameObj →
        ctx.readCString nameObj = .ok nm →
        start < U64_MOD → size < U64_MOD →
        kernel_module_iterator_next_walk ctx node0 head =
            .ok (some (nm, start, wrapAdd64 start size, mod, node))
          ∧ (start ≤ wrapAdd64 start size ↔ start + size < U64_MOD)) := by
  constructor
  · intro line i size s1 s2 s3 s4 start r h1 h2 h3 h4 h5 h6
    refine ⟨?_, wrapAdd64_start_le_end start size (scanU64_value_lt h6) (scanU64_value_lt h2)⟩
    simp only [kernel_module_iterator_next_live, h1, h2, h3, h4, h5, h6]
  · intro Obj ctx node0 n1 node mod tmp1 tmp2 nameObj head addr start size nm
      h1 h2 h3 h4 h5 h6 h7 h8 h9 h10 hs hz
    refine ⟨?_, wrapAdd64_start_le_end start size hs hz⟩
    simp only [kernel_module_iterator_next_walk, h1, h2, h3, if_neg h4, h5, h6, h7, h8,
      h9, h10]

/-- Witness for C8: a /proc/modules line with size 16 and load address
0x1000. -/
theorem C8_end_wraps_mod_2_64_witness :
    kernel_module_iterator_next_live (bytes "foo 16 1 - Live 1000\n") =
        .ok ((bytes "foo 16 1 - Live 1000\n").take 3, 4096, wrapAdd64 4096 16)
      ∧ (4096 ≤ wrapAdd64 4096 16 ↔ 4096 + 16 < U64_MOD) :=
  C8_end_wraps_mod_2_64.1 (bytes "foo 16 1 - Live 1000\n") 3 16
    (bytes " 1 - Live 1000\n") (bytes " - Live 1000\n") (bytes " Live 1000\n")
    (bytes " 1000\n") 4096 (bytes "\n")
    (by decide) (by decide) (by decide) (by decide) (by decide) (by decide)

/-- C8 counterexample: a /proc/modules line whose start address is
0xffffffffffffffff and size is 2 is emitted with end = 1 < start, so
`start ≤ end` does not hold for every successfully emitted module. -/
theorem C8_overflow_counterexample :
    kernel_module_iterator_next_live (bytes "foo 2 0 - Live ffffffffffffffff\n")
        = .ok (bytes "foo", 18446744073709551615, 1)
      ∧ ¬ (18446744073709551615 : Nat) ≤ 1 := by
  decide

/-- Unfolding of `tableSearch` on a cons cell. -/
theorem tableSearch_cons (e : List Nat × List KernelModuleFile) (t : KmodTable)
    (key : List Nat) :
    tableSearch (e :: t) key = if e.1 = key then some e.2 else tableSearch t key := by
  by_cases he : e.1 = key <;> simp [tableSearch, List.find?, he]

/-- Search after the chain-prepending update of `kmod_table_add`. -/
theorem tableSearch_map_update (t : KmodTable) (k : KernelModuleFile) (key : List Nat) :
    tableSearch
        (List.map (fun e => if e.1 = k.gnu_build_id then (e.1, k :: e.2) else e) t) key =
      if k.gnu_build_id = key then (tableSearch t key).map (fun c => k :: c)
      else tableSearch t key := by
  induction t with
  | nil =>
    simp only [List.map_nil]
    split <;> rfl
  | cons e t ih =>
    simp only [List.map_cons]
    by_cases heb : e.1 = k.gnu_build_id
    · by_cases hek : e.1 = key
      · have hbk : k.gnu_build_id = key := by rw [← heb, hek]
        simp [tableSearch_cons, heb, hek, hbk]
      · have hbk : ¬ k.gnu_build_id = key := fun hc => hek (heb.trans hc)
        simp [tableSearch_cons, heb, hek, hbk, ih]
    · by_cases hek : e.1 = key
      · by_cases hbk : k.gnu_build_id = key
        · exact absurd (hek.trans hbk.symm) heb
        · have hkb : ¬ key = k.gnu_build_id := fun hc => hbk hc.symm
          simp [tableSearch_cons, heb, hek, hbk, hkb]
      · simp [tableSearch_cons, heb, hek, ih]

/-- Search after appending a fresh single-chain entry. -/
theorem tableSearch_append_single (t : KmodTable) (x : List Nat × List KernelModuleFile)
    (key : List Nat) :
    tableSearch (t ++ [x]) key =
      match tableSearch t key with
      | some c => some c
      | none => if x.1 = key then some x.2 else none := by
  induction t with
  | nil => simp [tableSearch_cons, tableSearch]
  | cons e t ih =>
    by_cases he : e.1 = key
    · simp [List.cons_append, tableSearch_cons, he]
    · simp [List.cons_append, tableSearch_cons, he, ih]

/-- Search after a full `kmod_table_add`: the new file is prepended to its
build-ID chain. -/
theorem tableSearch_kmod_table_add (t : KmodTable) (k : KernelModuleFile) (key : List Nat) :
    tableSearch (kmod_table_add t k) key =
      if k.gnu_build_id = key then some (k :: (tableSearch t key).getD [])
      else tableSearch t key := by
  unfold kmod_table_add
  split
  · rename_i hfind
    rw [tableSearch_map_update]
    by_cases hek : k.gnu_build_id = key
    · subst hek
      have hsome : (tableSearch t k.gnu_build_id).isSome := by
        unfold tableSearch
        cases hf : List.find? (fun e => e.1 = k.gnu_build_id) t with
        | none => rw [hf] at hfind; exact absurd hfind (by simp)
        | some v => simp
      rcases Option.isSome_iff_exists.mp hsome with ⟨c, hc⟩
      simp [hc]
    · simp [hek]
  · rename_i hfind
    have hnone : tableSearch t k.gnu_build_id = none := by
      unfold tableSearch
      cases hf : List.find? (fun e => e.1 = k.gnu_build_id) t with
      | none => simp
      | some v => rw [hf] at hfind; exact absurd rfl hfind
    rw [tableSearch_append_single]
    by_cases hek : k.gnu_build_id = key
    · subst hek
      simp [hnone]
    · cases htk : tableSearch t key <;> simp [hek, htk]

/-- Search after folding the whole candidate list into the table: the chain
for a key is the reverse of the insertion-order sublist with that build ID,
in front of whatever the accumulator already held. -/
theorem tableSearch_build_aux (l : List KernelModuleFile) (key : List Nat) :
    ∀ t : KmodTable,
      tableSearch (List.foldl kmod_table_add t l) key =
        match tableSearch t key with
        | some c => some ((l.filter (fun k => k.gnu_build_id = key)).reverse ++ c)
        | none =>
          if l.filter (fun k => k.gnu_build_id = key) = [] then none
          else some (l.filter (fun k => k.gnu_build_id = key)).reverse := by
  induction l with
  | nil =>
    intro t
    cases h : tableSearch t key <;> simp [h]
  | cons x l ih =>
    intro t
    rw [List.foldl_cons, ih (kmod_table_add t x), tableSearch_kmod_table_add]
    by_cases hx : x.gnu_build_id = key
    · rw [if_pos hx]
      cases h : tableSearch t key with
      | some c => simp [h, List.filter_cons, hx]
      | none => simp [h, List.filter_cons, hx]
    · rw [if_neg hx]
      cases h : tableSearch t key with
      | some c => simp [h, List.filter_cons, hx]
      | none => simp [h, List.filter_cons, hx]

/-- The chain stored for a build ID present among the candidates is the
reverse of the insertion-order sublist. -/
theorem tableSearch_build (kmods : List KernelModuleFile) (key : List Nat)
    (h : kmods.filter (fun k => k.gnu_build_id = key) ≠ []) :
    tableSearch (build_kmod_table kmods) key =
      some (kmods.filter (fun k => k.gnu_build_id = key)).reverse := by
  have haux := tableSearch_build_aux kmods key []
  rw [build_kmod_table, haux]
  have hbase : tableSearch ([] : KmodTable) key = none := rfl
  rw [hbase]
  simp [h]

/-- Deleting a key removes it from the table. -/
theorem tableSearch_delete (t : KmodTable) (key : List Nat) :
    tableSearch (tableDelete t key) key = none := by
  induction t with
  | nil => rfl
  | cons e t ih =>
    by_cases he : e.1 = key
    · simpa [tableDelete, List.filter_cons, he] using ih
    · simpa [tableDelete, List.filter_cons, he, tableSearch_cons] using ih

/-- With section patching succeeding, the chain loop reports each file at the
module's range. -/
theorem report_chain_all_ok (chain : List KernelModuleFile) (start end_ : Nat)
    (mname : List Nat) :
    report_chain (fun _ => true) chain start end_ mname =
      chain.map (fun k => ReportEvent.elf k.path start end_ mname) := by
  induction chain with
  | nil => rfl
  | cons k rest ih => simp [report_chain, ih]

/-- C2 (amended): when several caller-supplied candidate ELF files share the
same GNU build-ID and a loaded module with that (non-empty) build-ID is
encountered, every file in the chain is section-patched and reported to the
indexer at the module's runtime address range and the build-ID map entry is
removed, but the files are reported in REVERSE insertion order (chains are
built by prepending, and the chain is walked head first). -/
theorem C2_chain_reverse_insertion_order (kmods : List KernelModuleFile)
    (bid mname : List Nat) (start end_ : Nat) (errFatal : Option DrgnError)
    (hbid : bid ≠ [])
    (h : kmods.filter (fun k => k.gnu_build_id = bid) ≠ []) :
    report_loaded_kernel_module (fun _ => true) errFatal (build_kmod_table kmods)
        (.ok bid) mname start end_ =
      .handled
        ((kmods.filter (fun k => k.gnu_build_id = bid)).reverse.map
          (fun k => ReportEvent.elf k.path start end_ mname))
        (tableDelete (build_kmod_table kmods) bid)
    ∧ tableSearch (tableDelete (build_kmod_table kmods) bid) bid = none := by
  constructor
  · have hbe : bid.isEmpty = false := by
      cases bid with
      | nil => exact absurd rfl hbid
      | cons c cs => rfl
    simp only [report_loaded_kernel_module, hbe, Bool.false_eq_true, if_false]
    rw [tableSearch_build kmods bid h]
    simp only [report_chain_all_ok]
  · exact tableSearch_delete _ _

/-- Witness for C2: two files sharing build ID [1, 2]. -/
theorem C2_chain_reverse_insertion_order_witness :
    report_loaded_kernel_module (fun _ => true) none (build_kmod_table [kmodA, kmodB])
        (.ok [1, 2]) (bytes "m") 100 200 =
      .handled
        (([kmodA, kmodB].filter (fun k => k.gnu_build_id = [1, 2])).reverse.map
          (fun k => ReportEvent.elf k.path 100 200 (bytes "m")))
        (tableDelete (build_kmod_table [kmodA, kmodB]) [1, 2])
    ∧ tableSearch (tableDelete (build_kmod_table [kmodA, kmodB]) [1, 2]) [1, 2] = none :=
  C2_chain_reverse_insertion_order [kmodA, kmodB] [1, 2] (bytes "m") 100 200 none
    (by decide) (by decide)

/-- C2 counterexample: with files supplied in the order a.ko, b.ko (same
build ID), b.ko is reported first — the reverse of insertion order. -/
theorem C2_insertion_order_counterexample :
    report_loaded_kernel_module (fun _ => true) none (build_kmod_table [kmodA, kmodB])
        (.ok [1, 2]) (bytes "m") 100 200 =
      .handled
        [ReportEvent.elf (bytes "b.ko") 100 200 (bytes "m"),
         ReportEvent.elf (bytes "a.ko") 100 200 (bytes "m")] []
    ∧ [ReportEvent.elf (bytes "b.ko") 100 200 (bytes "m"),
       ReportEvent.elf (bytes "a.ko") 100 200 (bytes "m")]
      ≠ [ReportEvent.elf (bytes "a.ko") 100 200 (bytes "m"),
         ReportEvent.elf (bytes "b.ko") 100 200 (bytes "m")] := by
  decide

/-- C10 (confirmed): when candidate files were supplied, a loaded module
whose GNU build ID cannot be extracted (error or empty) is reported through
the indexer's error channel as "could not find GNU build ID" and the
iteration then skips the depmod default-path lookup for that module entirely
(continuing on a non-fatal channel verdict, breaking on a fatal one), even
when default loading is enabled and the module is not yet indexed. -/
theorem C10_missing_build_id_skips_depmod :
    (∀ (patchOk : List Nat → Bool) (errFatal : Option DrgnError) (t : KmodTable)
        (er : DrgnError) (mname : List Nat) (start end_ : Nat)
        (loadDefault isIndexed : Bool) (defaultEvents : List ReportEvent),
        report_loaded_kernel_modules_iteration patchOk errFatal (some t) (.error er) mname
            start end_ loadDefault isIndexed defaultEvents =
          ⟨[ReportEvent.err mname "could not find GNU build ID"], false, errFatal.isNone⟩)
    ∧ (∀ (patchOk : List Nat → Bool) (errFatal : Option DrgnError) (t : KmodTable)
        (mname : List Nat) (start end_ : Nat) (loadDefault isIndexed : Bool)
        (defaultEvents : List ReportEvent),
        report_loaded_kernel_modules_iteration patchOk errFatal (some t) (.ok []) mname
            start end_ loadDefault isIndexed defaultEvents =
          ⟨[ReportEvent.err mname "could not find GNU build ID"], false, errFatal.isNone⟩) := by
  constructor
  · intro patchOk errFatal t er mname start end_ loadDefault isIndexed defaultEvents
    cases errFatal <;>
      simp [report_loaded_kernel_modules_iteration, report_loaded_kernel_module]
  · intro patchOk errFatal t mname start end_ loadDefault isIndexed defaultEvents
    cases errFatal <;>
      simp [report_loaded_kernel_modules_iteration, report_loaded_kernel_module]

/-- Witness for C10: an empty build ID with default loading enabled and the
module not indexed — the error is reported and no depmod lookup happens. -/
theorem C10_missing_build_id_skips_depmod_witness :
    report_loaded_kernel_modules_iteration (fun _ => true) none (some [])
        (.ok []) (bytes "m") 0 0 true false [] =
      ⟨[ReportEvent.err (bytes "m") "could not find GNU build ID"], false, true⟩ :=
  C10_missing_build_id_skips_depmod.2 (fun _ => true) none [] (bytes "m") 0 0 true false []

end Drgn
